import Mathlib

/-!
Shallow embedding of the DeckHelper firmware (DeckHelper.ino).

The sketch has two independent parts:

* a MIDI path: note-on / note-off / thru callbacks that rewrite channel
  aftertouch into polyphonic aftertouch for the most recently pressed note
  (`MIDINoteOnHandler`, `MIDINoteOffHandler`, `MIDIThruHandler`);
* a ribbon path: the body of `loop()` that smooths the analog reading with an
  exponential moving average, rejects steep slopes against a 20-entry ring
  buffer of past accumulator values, tracks a contact baseline, and emits
  throttled pitch-bend messages.

C `float` arithmetic is embedded as exact rational arithmetic (`ℚ`); the
C cast `(int)` of a float is truncation toward zero (`ratTrunc`); the
`unsigned long` subtraction `millis() - lastMessage` is 32-bit wraparound
subtraction (`usub32`).  Bytes and timestamps are `Nat`.
-/

attribute [local semireducible] Rat.ofScientific Rat.mul Rat.inv Rat.add Rat.sub

/-- MIDI message kinds seen by the thru callback.  Only `AfterTouchChannel`
is inspected by the sketch; every other type is passed along unchanged and
is collapsed into `Other` with its numeric code. -/
inductive MidiType where
  | AfterTouchChannel
  | Other (code : Nat)
  deriving DecidableEq

/-- Messages emitted by the sketch on the MIDI output. -/
inductive MidiOut where
  | afterTouchPoly (note pressure channel : Nat)
  | pitchBend (value : Int) (channel : Nat)
  | thru (message : MidiType) (data1 data2 channel : Nat)
  deriving DecidableEq

/-- The `AfterTouchMessage` struct of the sketch: the last polyphonic
aftertouch sent. -/
structure AfterTouchMessage where
  note : Nat
  pressure : Nat
  channel : Nat
  deriving DecidableEq

/-- `AfterTouchMessage::clear()`: zero all fields. -/
def AfterTouchMessage.clear : AfterTouchMessage := ⟨0, 0, 0⟩

/-- Modelled from the spec: the sentinel "no note" value returned by the
(absent) NotePriorityBuffer when no note is held; NoteBuffer.h is not part
of the sources, only its call sites are.  The concrete value is not
observable by any claim. -/
def noNote : Nat := 255

/-- Modelled from the spec: NotePriorityBuffer in kLast policy, as a list of
held notes with the most recently pressed note first.  `curNote` returns the
most recently pressed held note, or the sentinel when nothing is held. -/
def curNote (held : List Nat) : Nat := held.headD noNote

/-- Modelled from the spec: `NotePriorityBuffer::noteOn` records the note as
held and as most recently pressed. -/
def notePriorityOn (held : List Nat) (note : Nat) : List Nat :=
  note :: held.erase note

/-- Modelled from the spec: `NotePriorityBuffer::noteOff` removes the note
from the held set. -/
def notePriorityOff (held : List Nat) (note : Nat) : List Nat :=
  held.erase note

/-- The module-level state touched by the MIDI callbacks. -/
structure MidiState where
  heldNotes : List Nat
  lastAfterTouchMessage : AfterTouchMessage
  lastChannelUsed : Nat
  deriving DecidableEq

/-- `MIDINoteOffHandler`: set `lastChannelUsed`; if the released note is the
one recorded in `lastAfterTouchMessage` with nonzero pressure, emit a
poly-aftertouch-off for the recorded (note, channel) and clear the record;
then remove the note from the note buffer. -/
def MIDINoteOffHandler (channel note velocity : Nat) (s : MidiState) :
    MidiState × List MidiOut :=
  let s1 : MidiState := { s with lastChannelUsed := channel }
  if s1.lastAfterTouchMessage.note = note ∧ s1.lastAfterTouchMessage.pressure ≠ 0 then
    ({ s1 with
        lastAfterTouchMessage := AfterTouchMessage.clear,
        heldNotes := notePriorityOff s1.heldNotes note },
     [MidiOut.afterTouchPoly s1.lastAfterTouchMessage.note 0
        s1.lastAfterTouchMessage.channel])
  else
    ({ s1 with heldNotes := notePriorityOff s1.heldNotes note }, [])

/-- `MIDINoteOnHandler`: set `lastChannelUsed`; velocity 0 is delegated to
`MIDINoteOffHandler`; otherwise, if a different note still holds nonzero
recorded pressure, emit a poly-aftertouch-off for it and clear the record,
then add the note to the note buffer. -/
def MIDINoteOnHandler (channel note velocity : Nat) (s : MidiState) :
    MidiState × List MidiOut :=
  let s1 : MidiState := { s with lastChannelUsed := channel }
  if velocity = 0 then
    MIDINoteOffHandler channel note velocity s1
  else
    if s1.lastAfterTouchMessage.note ≠ note ∧ s1.lastAfterTouchMessage.pressure ≠ 0 then
      ({ s1 with
          lastAfterTouchMessage := AfterTouchMessage.clear,
          heldNotes := notePriorityOn s1.heldNotes note },
       [MidiOut.afterTouchPoly s1.lastAfterTouchMessage.note 0
          s1.lastAfterTouchMessage.channel])
    else
      ({ s1 with heldNotes := notePriorityOn s1.heldNotes note }, [])

/-- `MIDIThruHandler`: channel aftertouch is converted to polyphonic
aftertouch for the current note and recorded in `lastAfterTouchMessage`;
every other message is sent along unchanged. -/
def MIDIThruHandler (message : MidiType) (data1 data2 channel : Nat)
    (s : MidiState) : MidiState × List MidiOut :=
  match message with
  | MidiType.AfterTouchChannel =>
      let note := curNote s.heldNotes
      ({ s with lastAfterTouchMessage := ⟨note, data1, channel⟩ },
       [MidiOut.afterTouchPoly note data1 channel])
  | m => (s, [MidiOut.thru m data1 data2 channel])

/-- `const int slope_xsize = 20`: size of the ring buffer of past
accumulator values. -/
def slope_xsize : Nat := 20

/-- `const int slope_ysize = 1`: the slope threshold. -/
def slope_ysize : ℚ := 1

/-- `const int baseline_limit = 13`: the contact threshold. -/
def baseline_limit : ℚ := 13

/-- The module-level state touched by the ribbon part of `loop()`. -/
structure RibbonState where
  accumulator : ℚ
  sample : List ℚ
  currentValue : ℚ
  baseline : ℚ
  loopCount : Nat
  lastMessage : Nat
  lastBend : Int
  lastChannelUsed : Nat
  deriving DecidableEq

/-- Truncation of a rational toward zero, the semantics of the C cast
`(int)` applied to a float value. -/
def ratTrunc (q : ℚ) : Int :=
  if 0 ≤ q.num then q.num / (q.den : Int) else -((-q.num) / (q.den : Int))

/-- 32-bit wraparound subtraction, the semantics of `unsigned long`
subtraction `a - b` on the target. -/
def usub32 (a b : Nat) : Nat :=
  (a % 2 ^ 32 + 2 ^ 32 - b % 2 ^ 32) % 2 ^ 32

/-- The moving-average update of `loop()`:
`accumulator = 0.95*accumulator + 0.05*sensorReading`. -/
def tickAcc (s : RibbonState) (sensorReading : ℚ) : ℚ :=
  (95 / 100 : ℚ) * s.accumulator + (5 / 100 : ℚ) * sensorReading

/-- The ring-buffer write of `loop()`:
`sample[loopCount % slope_xsize] = accumulator`. -/
def tickSample (s : RibbonState) (sensorReading : ℚ) : List ℚ :=
  s.sample.set (s.loopCount % slope_xsize) (tickAcc s sensorReading)

/-- The ring-buffer read of `loop()`:
`earlierSample = sample[(loopCount+1) % slope_xsize]`, performed after the
write of this iteration. -/
def tickEarlier (s : RibbonState) (sensorReading : ℚ) : ℚ :=
  (tickSample s sensorReading).getD ((s.loopCount + 1) % slope_xsize) 0

/-- The slope filter of `loop()`: accept the accumulator as `currentValue`
when `abs(accumulator - earlierSample) < slope_ysize`, otherwise keep the
previous `currentValue`. -/
def tickCV (s : RibbonState) (sensorReading : ℚ) : ℚ :=
  if |tickAcc s sensorReading - tickEarlier s sensorReading| < slope_ysize then
    tickAcc s sensorReading
  else
    s.currentValue

/-- The bend computation of `loop()`: `int bend = 2 * (currentValue - baseline)`. -/
def tickBend (s : RibbonState) (sensorReading : ℚ) : Int :=
  ratTrunc (2 * (tickCV s sensorReading - s.baseline))

/-- The loop counter update at the end of `loop()`:
`loopCount++; if ((loopCount % slope_xsize) == 0) loopCount = 0;`. -/
def tickLoopCount (s : RibbonState) : Nat :=
  if (s.loopCount + 1) % slope_xsize = 0 then 0 else s.loopCount + 1

/-- One iteration of the ribbon part of `loop()`, fed with the analog
reading of this iteration and the current `millis()` value.  Returns the
next state and the MIDI messages sent during the iteration. -/
def ribbonTick (s : RibbonState) (sensorReading : ℚ) (now : Nat) :
    RibbonState × List MidiOut :=
  let cv := tickCV s sensorReading
  let base : RibbonState :=
    { s with
        accumulator := tickAcc s sensorReading,
        sample := tickSample s sensorReading,
        currentValue := cv,
        loopCount := tickLoopCount s }
  if s.baseline < baseline_limit then
    if cv > baseline_limit then
      ({ base with baseline := cv }, [MidiOut.pitchBend 0 s.lastChannelUsed])
    else
      (base, [])
  else
    if cv ≤ baseline_limit then
      ({ base with baseline := 0 }, [MidiOut.pitchBend 0 s.lastChannelUsed])
    else
      if tickBend s sensorReading ≠ s.lastBend then
        if usub32 now s.lastMessage > 10 then
          ({ base with
              lastMessage := now,
              lastBend := tickBend s sensorReading },
           [MidiOut.pitchBend (tickBend s sensorReading) s.lastChannelUsed])
        else
          (base, [])
      else
        (base, [])

/-- The state established by `setup()` for the ribbon path: the accumulator,
`currentValue` and the whole ring buffer are seeded with the first analog
reading; `baseline = 0`, `loopCount = 0`, `lastMessage = 0`, and the
function-static `lastBend` starts at `-1`. -/
def initRibbon (seed : ℚ) (channel : Nat) : RibbonState :=
  { accumulator := seed,
    sample := List.replicate slope_xsize seed,
    currentValue := seed,
    baseline := 0,
    loopCount := 0,
    lastMessage := 0,
    lastBend := -1,
    lastChannelUsed := channel }

/-- `n` iterations of the ribbon part of `loop()` from the `setup()` state,
driven by a stream of analog readings and a stream of `millis()` values. -/
def runN (seed : ℚ) (channel : Nat) (sensor : Nat → ℚ) (clock : Nat → Nat) :
    Nat → RibbonState
  | 0 => initRibbon seed channel
  | n + 1 => (ribbonTick (runN seed channel sensor clock n) (sensor n) (clock n)).1

/-- The accumulator trace: `emaN seed sensor n` is the accumulator value
after the first `n` iterations (`emaN seed sensor 0` is the seed). -/
def emaN (seed : ℚ) (sensor : Nat → ℚ) : Nat → ℚ
  | 0 => seed
  | n + 1 => (95 / 100 : ℚ) * emaN seed sensor n + (5 / 100 : ℚ) * sensor n

/-- The iteration whose write is still visible in ring-buffer slot `j` after
`n` iterations (meaningful when `j < n`): the greatest `m < n` with
`m % slope_xsize = j`, expressed so that the slot holds `emaN` at
`lastWriteStep n j`. -/
def lastWriteStep (n j : Nat) : Nat := n - (n - 1 - j) % slope_xsize

/-- The content of ring-buffer slot `j` after `n` iterations: the
accumulator value of the last iteration that wrote the slot, or the seed if
the slot has never been written. -/
def slotVal (seed : ℚ) (sensor : Nat → ℚ) (n j : Nat) : ℚ :=
  if j < n then emaN seed sensor (lastWriteStep n j) else seed

/-- Concrete in-contact ribbon state used for the throttle claims: steady at
position 20 with baseline 20, throttle state at its initial values. -/
def stateC3 : RibbonState :=
  { accumulator := 20, sample := List.replicate 20 20, currentValue := 20,
    baseline := 20, loopCount := 0, lastMessage := 0, lastBend := -1,
    lastChannelUsed := 0 }

/-- Concrete out-of-contact ribbon state steady at position 20, about to
enter contact. -/
def stateC9d : RibbonState :=
  { accumulator := 20, sample := List.replicate 20 20, currentValue := 20,
    baseline := 0, loopCount := 0, lastMessage := 0, lastBend := -1,
    lastChannelUsed := 0 }

/-- Concrete in-contact ribbon state about to leave contact while
`lastBend = 4` is still recorded from an earlier send; ring-buffer slots 2
and 3 are preset so that a quick re-entry into contact passes the slope
filter. -/
def stateC9e : RibbonState :=
  { accumulator := 10,
    sample := [10, 10, 24, 26, 10, 10, 10, 10, 10, 10,
               10, 10, 10, 10, 10, 10, 10, 10, 10, 10],
    currentValue := 10, baseline := 20, loopCount := 0, lastMessage := 0,
    lastBend := 4, lastChannelUsed := 0 }

/-- Concrete ribbon state whose accumulator sits far from the (zeroed) ring
buffer, so the slope filter keeps rejecting updates. -/
def stateC6B : RibbonState :=
  { accumulator := 100, sample := List.replicate 20 0, currentValue := 50,
    baseline := 0, loopCount := 0, lastMessage := 0, lastBend := -1,
    lastChannelUsed := 0 }

/-- Concrete ribbon state for which one reading is rejected by the slope
filter and the same reading is accepted on the following iteration. -/
def stateC6W : RibbonState :=
  { accumulator := 0,
    sample := [0, 0, 3 / 2, 0, 0, 0, 0, 0, 0, 0,
               0, 0, 0, 0, 0, 0, 0, 0, 0, 0],
    currentValue := 5, baseline := 0, loopCount := 0, lastMessage := 0,
    lastBend := -1, lastChannelUsed := 0 }

/-- Concrete MIDI state with note 60 held and nonzero recorded aftertouch
pressure on note 60, channel 3. -/
def stateC1 : MidiState :=
  { heldNotes := [60], lastAfterTouchMessage := ⟨60, 50, 3⟩,
    lastChannelUsed := 0 }

/-- Concrete MIDI state with no held note and a cleared aftertouch record. -/
def stateC2 : MidiState :=
  { heldNotes := [], lastAfterTouchMessage := AfterTouchMessage.clear,
    lastChannelUsed := 0 }

/-! ## Helper lemmas -/

theorem List.getD_set_lt (l : List ℚ) (i j : Nat) (a : ℚ) (hj : j < l.length) :
    (l.set i a).getD j 0 = if i = j then a else l.getD j 0 := by
  induction l generalizing i j with
  | nil => simp at hj
  | cons b l ih =>
    cases i with
    | zero =>
      cases j with
      | zero => simp
      | succ j => simp
    | succ i =>
      cases j with
      | zero => simp
      | succ j =>
        simp only [List.set_cons_succ, List.getD_cons_succ]
        rw [ih i j (by simpa using hj)]
        simp [Nat.succ_inj]

theorem List.getD_replicate_lt (k j : Nat) (a : ℚ) (hj : j < k) :
    (List.replicate k a).getD j 0 = a := by
  induction k generalizing j with
  | zero => omega
  | succ k ih =>
    cases j with
    | zero => simp [List.replicate]
    | succ j => simpa [List.replicate] using ih j (by omega)

theorem ribbonTick_state (s : RibbonState) (x : ℚ) (now : Nat) :
    ((ribbonTick s x now).1).accumulator = tickAcc s x ∧
    ((ribbonTick s x now).1).sample = tickSample s x ∧
    ((ribbonTick s x now).1).currentValue = tickCV s x ∧
    ((ribbonTick s x now).1).loopCount = tickLoopCount s ∧
    ((ribbonTick s x now).1).lastChannelUsed = s.lastChannelUsed := by
  unfold ribbonTick
  by_cases h1 : s.baseline < baseline_limit <;>
    by_cases h2 : tickCV s x > baseline_limit <;>
      by_cases h3 : tickCV s x ≤ baseline_limit <;>
        by_cases h4 : tickBend s x ≠ s.lastBend <;>
          by_cases h5 : usub32 now s.lastMessage > 10 <;>
            simp [h1, h2, h3, h4, h5]

theorem ribbonTick_baseline (s : RibbonState) (x : ℚ) (now : Nat) :
    ((ribbonTick s x now).1).baseline =
      if s.baseline < baseline_limit then
        if tickCV s x > baseline_limit then tickCV s x else s.baseline
      else
        if tickCV s x ≤ baseline_limit then 0 else s.baseline := by
  unfold ribbonTick
  by_cases h1 : s.baseline < baseline_limit <;>
    by_cases h2 : tickCV s x > baseline_limit <;>
      by_cases h3 : tickCV s x ≤ baseline_limit <;>
        by_cases h4 : tickBend s x ≠ s.lastBend <;>
          by_cases h5 : usub32 now s.lastMessage > 10 <;>
            simp [h1, h2, h3, h4, h5]

theorem tickLoopCount_mod (s : RibbonState) (n : Nat)
    (h : s.loopCount = n % slope_xsize) :
    tickLoopCount s = (n + 1) % slope_xsize := by
  unfold tickLoopCount
  rw [h]
  simp only [slope_xsize]
  split <;> omega

theorem lastWriteStep_self (n : Nat) :
    lastWriteStep (n + 1) (n % slope_xsize) = n + 1 := by
  unfold lastWriteStep slope_xsize
  omega

theorem lastWriteStep_stable (n j : Nat) (hj : j < slope_xsize)
    (hne : j ≠ n % slope_xsize) (hlt : j < n) :
    lastWriteStep (n + 1) j = lastWriteStep n j := by
  unfold lastWriteStep slope_xsize
  unfold slope_xsize at hj hne
  omega

theorem slotVal_succ (seed : ℚ) (sensor : Nat → ℚ) (n j : Nat)
    (hj : j < slope_xsize) :
    slotVal seed sensor (n + 1) j =
      if n % slope_xsize = j then emaN seed sensor (n + 1)
      else slotVal seed sensor n j := by
  by_cases hv : n % slope_xsize = j
  · subst hv
    rw [if_pos rfl]
    unfold slotVal
    rw [if_pos (by unfold slope_xsize; omega)]
    rw [lastWriteStep_self]
  · rw [if_neg hv]
    unfold slotVal
    by_cases hlt : j < n
    · rw [if_pos (by omega), if_pos hlt,
        lastWriteStep_stable n j hj (fun h => hv h.symm) hlt]
    · have hge : ¬ j < n + 1 := by
        unfold slope_xsize at hj hv
        omega
      rw [if_neg hge, if_neg hlt]

theorem slotVal_read (seed : ℚ) (sensor : Nat → ℚ) (n : Nat) :
    slotVal seed sensor (n + 1) ((n + 1) % slope_xsize) =
      if 19 ≤ n then emaN seed sensor (n - 18) else seed := by
  unfold slotVal
  by_cases h : 19 ≤ n
  · rw [if_pos h, if_pos (by unfold slope_xsize; omega)]
    have : lastWriteStep (n + 1) ((n + 1) % slope_xsize) = n - 18 := by
      unfold lastWriteStep slope_xsize
      omega
    rw [this]
  · rw [if_neg h, if_neg (by unfold slope_xsize; omega)]

theorem runN_state (seed : ℚ) (ch : Nat) (sensor : Nat → ℚ)
    (clock : Nat → Nat) : ∀ n : Nat,
    (runN seed ch sensor clock n).loopCount = n % slope_xsize ∧
    (runN seed ch sensor clock n).sample.length = slope_xsize ∧
    (runN seed ch sensor clock n).accumulator = emaN seed sensor n ∧
    (runN seed ch sensor clock n).lastChannelUsed = ch ∧
    ∀ j, j < slope_xsize →
      (runN seed ch sensor clock n).sample.getD j 0 = slotVal seed sensor n j := by
  intro n
  induction n with
  | zero =>
    refine ⟨rfl, by simp [runN, initRibbon], rfl, rfl, ?_⟩
    intro j hj
    have h1 : (List.replicate slope_xsize seed).getD j 0 = seed :=
      List.getD_replicate_lt slope_xsize j seed hj
    simpa [runN, initRibbon, slotVal] using h1
  | succ n ih =>
    obtain ⟨hlc, hlen, hacc, hch, hslots⟩ := ih
    have hrun : runN seed ch sensor clock (n + 1) =
        (ribbonTick (runN seed ch sensor clock n) (sensor n) (clock n)).1 := rfl
    obtain ⟨pacc, psamp, -, plc, pch⟩ :=
      ribbonTick_state (runN seed ch sensor clock n) (sensor n) (clock n)
    have hacc1 : tickAcc (runN seed ch sensor clock n) (sensor n) =
        emaN seed sensor (n + 1) := by
      unfold tickAcc
      rw [hacc]
      rfl
    refine ⟨?_, ?_, ?_, ?_, ?_⟩
    · rw [hrun, plc]
      exact tickLoopCount_mod _ n hlc
    · rw [hrun, psamp]
      unfold tickSample
      rw [List.length_set, hlen]
    · rw [hrun, pacc, hacc1]
    · rw [hrun, pch, hch]
    · intro j hj
      rw [hrun, psamp]
      unfold tickSample
      rw [hlc]
      have hmm : n % slope_xsize % slope_xsize = n % slope_xsize :=
        Nat.mod_mod_of_dvd n dvd_rfl
    -- write index after reduction
      rw [hmm, List.getD_set_lt _ _ _ _ (by rw [hlen]; exact hj),
        slotVal_succ seed sensor n j hj, hacc1]
      by_cases he : n % slope_xsize = j
      · rw [if_pos he, if_pos he]
      · rw [if_neg he, if_neg he]
        exact hslots j hj

theorem runN_baseline (seed : ℚ) (ch : Nat) (sensor : Nat → ℚ)
    (clock : Nat → Nat) : ∀ n : Nat,
    (runN seed ch sensor clock n).baseline = 0 ∨
      baseline_limit < (runN seed ch sensor clock n).baseline := by
  intro n
  induction n with
  | zero => exact Or.inl rfl
  | succ n ih =>
    have hrun : runN seed ch sensor clock (n + 1) =
        (ribbonTick (runN seed ch sensor clock n) (sensor n) (clock n)).1 := rfl
    rw [hrun, ribbonTick_baseline]
    set s := runN seed ch sensor clock n
    by_cases h1 : s.baseline < baseline_limit
    · rw [if_pos h1]
      by_cases h2 : tickCV s (sensor n) > baseline_limit
      · rw [if_pos h2]
        exact Or.inr h2
      · rw [if_neg h2]
        exact ih
    · rw [if_neg h1]
      by_cases h3 : tickCV s (sensor n) ≤ baseline_limit
      · rw [if_pos h3]
        exact Or.inl rfl
      · rw [if_neg h3]
        exact ih

/-! ## Claim theorems -/

/-- Claim C1: whenever the note recorded in `lastAfterTouchMessage` holds
nonzero pressure and is released (note-off for that note, including the
velocity-0 note-on that the sketch treats as a note-off) or superseded (a
genuine note-on, velocity nonzero, for a different note), the handler emits
exactly one poly-aftertouch-off (pressure 0) for the recorded (note,
channel) and nothing else, and clears the recorded aftertouch state; the
note-buffer update happens after that, and no other action precedes the
off message. -/
theorem claimC1 (s : MidiState) (channel note velocity : Nat)
    (hp : s.lastAfterTouchMessage.pressure ≠ 0) :
    (note = s.lastAfterTouchMessage.note →
      MIDINoteOffHandler channel note velocity s =
        ({ s with
            lastChannelUsed := channel,
            lastAfterTouchMessage := AfterTouchMessage.clear,
            heldNotes := notePriorityOff s.heldNotes note },
         [MidiOut.afterTouchPoly s.lastAfterTouchMessage.note 0
            s.lastAfterTouchMessage.channel])) ∧
    (velocity ≠ 0 → note ≠ s.lastAfterTouchMessage.note →
      MIDINoteOnHandler channel note velocity s =
        ({ s with
            lastChannelUsed := channel,
            lastAfterTouchMessage := AfterTouchMessage.clear,
            heldNotes := notePriorityOn s.heldNotes note },
         [MidiOut.afterTouchPoly s.lastAfterTouchMessage.note 0
            s.lastAfterTouchMessage.channel])) := by
  constructor
  · intro h
    unfold MIDINoteOffHandler
    rw [if_pos ⟨h.symm, hp⟩]
  · intro hv hn
    unfold MIDINoteOnHandler
    rw [if_neg hv, if_pos ⟨fun he => hn he.symm, hp⟩]

/-- Witness for C1 at a concrete state: note 60 is held with recorded
pressure 50 on channel 3; releasing note 60 emits exactly the
poly-aftertouch-off and clears the record. -/
theorem claimC1_witness :
    stateC1.lastAfterTouchMessage.pressure ≠ 0 ∧
    (60 : Nat) = stateC1.lastAfterTouchMessage.note ∧
    MIDINoteOffHandler 3 60 0 stateC1 =
      ({ stateC1 with
          lastChannelUsed := 3,
          lastAfterTouchMessage := AfterTouchMessage.clear,
          heldNotes := notePriorityOff stateC1.heldNotes 60 },
       [MidiOut.afterTouchPoly stateC1.lastAfterTouchMessage.note 0
          stateC1.lastAfterTouchMessage.channel]) :=
  ⟨by decide, by decide, (claimC1 stateC1 3 60 0 (by decide)).1 (by decide)⟩

/-- Claim C2: an incoming channel-aftertouch event with pressure `p` on
channel `c` yields exactly one PolyAftertouch event `(curNote, p, c)` and
records that triple as the active aftertouch message; when no note is held,
`curNote` is the sentinel `noNote` and the event is still emitted, not
dropped. -/
theorem claimC2 (s : MidiState) (pressure data2 channel : Nat) :
    MIDIThruHandler MidiType.AfterTouchChannel pressure data2 channel s =
      ({ s with lastAfterTouchMessage :=
          ⟨curNote s.heldNotes, pressure, channel⟩ },
       [MidiOut.afterTouchPoly (curNote s.heldNotes) pressure channel]) ∧
    (s.heldNotes = [] → curNote s.heldNotes = noNote) := by
  constructor
  · rfl
  · intro h
    rw [h]
    rfl

/-- Witness for C2 at a concrete state with no held note: the event is
emitted toward the sentinel note. -/
theorem claimC2_witness :
    stateC2.heldNotes = [] ∧
    MIDIThruHandler MidiType.AfterTouchChannel 80 0 1 stateC2 =
      ({ stateC2 with lastAfterTouchMessage :=
          ⟨curNote stateC2.heldNotes, 80, 1⟩ },
       [MidiOut.afterTouchPoly (curNote stateC2.heldNotes) 80 1]) ∧
    curNote stateC2.heldNotes = noNote :=
  ⟨rfl, (claimC2 stateC2 80 0 1).1, (claimC2 stateC2 80 0 1).2 rfl⟩

/-- Claim C7: a note-on with velocity 0 produces exactly the same state
change and the same emitted messages as the corresponding note-off, for
every channel, note and state. -/
theorem claimC7 (s : MidiState) (channel note : Nat) :
    MIDINoteOnHandler channel note 0 s = MIDINoteOffHandler channel note 0 s := rfl

/-- The messages sent during one ribbon iteration, by branch of `loop()`. -/
theorem ribbonTick_out (s : RibbonState) (x : ℚ) (now : Nat) :
    (ribbonTick s x now).2 =
      if s.baseline < baseline_limit then
        if baseline_limit < tickCV s x then
          [MidiOut.pitchBend 0 s.lastChannelUsed]
        else []
      else
        if tickCV s x ≤ baseline_limit then
          [MidiOut.pitchBend 0 s.lastChannelUsed]
        else
          if tickBend s x ≠ s.lastBend ∧ 10 < usub32 now s.lastMessage then
            [MidiOut.pitchBend (tickBend s x) s.lastChannelUsed]
          else [] := by
  unfold ribbonTick
  by_cases h1 : s.baseline < baseline_limit <;>
    by_cases h2 : baseline_limit < tickCV s x <;>
      by_cases h3 : tickCV s x ≤ baseline_limit <;>
        by_cases h4 : tickBend s x ≠ s.lastBend <;>
          by_cases h5 : 10 < usub32 now s.lastMessage <;>
            simp [h1, h2, h3, h4, h5]

/-- `lastMessage` after one ribbon iteration: it is set to the current
`millis()` value exactly when a throttled in-contact bend message is sent. -/
theorem ribbonTick_lastMessage (s : RibbonState) (x : ℚ) (now : Nat) :
    (ribbonTick s x now).1.lastMessage =
      if ¬ s.baseline < baseline_limit ∧ ¬ tickCV s x ≤ baseline_limit ∧
          tickBend s x ≠ s.lastBend ∧ 10 < usub32 now s.lastMessage then
        now
      else s.lastMessage := by
  unfold ribbonTick
  by_cases h1 : s.baseline < baseline_limit <;>
    by_cases h2 : baseline_limit < tickCV s x <;>
      by_cases h3 : tickCV s x ≤ baseline_limit <;>
        by_cases h4 : tickBend s x ≠ s.lastBend <;>
          by_cases h5 : 10 < usub32 now s.lastMessage <;>
            simp [h1, h2, h3, h4, h5]

/-- `lastBend` after one ribbon iteration: it is set to the computed bend
exactly when a throttled in-contact bend message is sent. -/
theorem ribbonTick_lastBend (s : RibbonState) (x : ℚ) (now : Nat) :
    (ribbonTick s x now).1.lastBend =
      if ¬ s.baseline < baseline_limit ∧ ¬ tickCV s x ≤ baseline_limit ∧
          tickBend s x ≠ s.lastBend ∧ 10 < usub32 now s.lastMessage then
        tickBend s x
      else s.lastBend := by
  unfold ribbonTick
  by_cases h1 : s.baseline < baseline_limit <;>
    by_cases h2 : baseline_limit < tickCV s x <;>
      by_cases h3 : tickCV s x ≤ baseline_limit <;>
        by_cases h4 : tickBend s x ≠ s.lastBend <;>
          by_cases h5 : 10 < usub32 now s.lastMessage <;>
            simp [h1, h2, h3, h4, h5]

/-- Claim C3 counterexample: from a steady in-contact state, a bend message
is sent at `millis() = 100`; the next bend-worthy update (computed bend 1,
last sent bend 0) arrives exactly 10 ms later at `millis() = 110`, so the
two updates are spaced exactly 10 ms apart with differing values, yet the
second tick emits nothing, because the code requires strictly more than
10 ms (`(millis() - lastMessage) > 10`), not at least 10 ms. -/
theorem claimC3_counterexample :
    (ribbonTick stateC3 20 100).2 = [MidiOut.pitchBend 0 0] ∧
    (ribbonTick stateC3 20 100).1.lastMessage = 100 ∧
    (ribbonTick stateC3 20 100).1.lastBend = 0 ∧
    ¬ (ribbonTick stateC3 20 100).1.baseline < baseline_limit ∧
    baseline_limit < tickCV (ribbonTick stateC3 20 100).1 30 ∧
    tickBend (ribbonTick stateC3 20 100).1 30 ≠
      (ribbonTick stateC3 20 100).1.lastBend ∧
    usub32 110 (ribbonTick stateC3 20 100).1.lastMessage = 10 ∧
    (ribbonTick (ribbonTick stateC3 20 100).1 30 110).2 = [] := by decide

/-- Claim C3 (amended): while in contact, a (non-reset) pitch-bend message
is emitted on a tick if and only if the computed bend value differs from
the last sent bend value AND strictly more than 10 milliseconds have
elapsed since the last pitch-bend send; two bend-worthy updates spaced at
most 10 ms apart yield only one message, and updates spaced strictly more
than 10 ms apart with differing values both yield messages. -/
theorem claimC3 (s : RibbonState) (x : ℚ) (now : Nat)
    (hc : ¬ s.baseline < baseline_limit)
    (hcv : baseline_limit < tickCV s x) :
    (ribbonTick s x now).2 =
      if tickBend s x ≠ s.lastBend ∧ 10 < usub32 now s.lastMessage then
        [MidiOut.pitchBend (tickBend s x) s.lastChannelUsed]
      else [] := by
  rw [ribbonTick_out, if_neg hc, if_neg (not_le.mpr hcv)]

/-- Witness for the amended C3 at a concrete in-contact state. -/
theorem claimC3_witness :
    ¬ stateC3.baseline < baseline_limit ∧
    baseline_limit < tickCV stateC3 20 ∧
    (ribbonTick stateC3 20 100).2 =
      (if tickBend stateC3 20 ≠ stateC3.lastBend ∧
          10 < usub32 100 stateC3.lastMessage then
        [MidiOut.pitchBend (tickBend stateC3 20) stateC3.lastChannelUsed]
      else []) :=
  ⟨by decide, by decide, claimC3 stateC3 20 100 (by decide) (by decide)⟩

/-- Claim C4: on each tick the new accumulator value `emaN (n+1)` is pushed
into the ring buffer, and `currentValue` is set to it exactly when its
absolute difference with the history sample written 19 ticks earlier
(`emaN (n-18)`, the accumulator pushed on tick `n-19`, or the seed value
before 19 ticks have elapsed) is strictly below the slope threshold 1;
otherwise `currentValue` is left unchanged. -/
theorem claimC4 (seed : ℚ) (ch : Nat) (sensor : Nat → ℚ)
    (clock : Nat → Nat) (n : Nat) :
    ((ribbonTick (runN seed ch sensor clock n) (sensor n) (clock n)).1).currentValue =
      if |emaN seed sensor (n + 1) -
          (if 19 ≤ n then emaN seed sensor (n - 18) else seed)| < slope_ysize then
        emaN seed sensor (n + 1)
      else (runN seed ch sensor clock n).currentValue := by
  obtain ⟨hlc, -, hacc, -, -⟩ := runN_state seed ch sensor clock n
  obtain ⟨-, psamp, pcv, -, -⟩ :=
    ribbonTick_state (runN seed ch sensor clock n) (sensor n) (clock n)
  have hacc1 : tickAcc (runN seed ch sensor clock n) (sensor n) =
      emaN seed sensor (n + 1) := by
    unfold tickAcc
    rw [hacc]
    rfl
  have hidx : ((runN seed ch sensor clock n).loopCount + 1) % slope_xsize =
      (n + 1) % slope_xsize := by
    rw [hlc]
    simp only [slope_xsize]
    omega
  have hE : tickEarlier (runN seed ch sensor clock n) (sensor n) =
      if 19 ≤ n then emaN seed sensor (n - 18) else seed := by
    have hj : (n + 1) % slope_xsize < slope_xsize := by
      simp only [slope_xsize]
      omega
    have hs := (runN_state seed ch sensor clock (n + 1)).2.2.2.2
      ((n + 1) % slope_xsize) hj
    have hrun : runN seed ch sensor clock (n + 1) =
        (ribbonTick (runN seed ch sensor clock n) (sensor n) (clock n)).1 := rfl
    rw [hrun, psamp] at hs
    rw [tickEarlier, hidx, hs, slotVal_read]
  rw [pcv]
  unfold tickCV
  rw [hacc1, hE]

/-- Claim C5: a contact-start transition (baseline below the threshold 13
and filtered value above it) and a contact-end transition (in contact and
filtered value at most 13) each emit a zero-valued pitch-bend on that same
tick, with no condition on the 10 ms throttle or the last sent bend value;
contact start sets the baseline to the filtered value, contact end sets it
to 0. -/
theorem claimC5 (s : RibbonState) (x : ℚ) (now : Nat) :
    (s.baseline < baseline_limit → baseline_limit < tickCV s x →
      (ribbonTick s x now).2 = [MidiOut.pitchBend 0 s.lastChannelUsed] ∧
      (ribbonTick s x now).1.baseline = tickCV s x) ∧
    (¬ s.baseline < baseline_limit → tickCV s x ≤ baseline_limit →
      (ribbonTick s x now).2 = [MidiOut.pitchBend 0 s.lastChannelUsed] ∧
      (ribbonTick s x now).1.baseline = 0) := by
  constructor
  · intro h1 h2
    constructor
    · rw [ribbonTick_out, if_pos h1, if_pos h2]
    · rw [ribbonTick_baseline, if_pos h1, if_pos h2]
  · intro h1 h3
    constructor
    · rw [ribbonTick_out, if_neg h1, if_pos h3]
    · rw [ribbonTick_baseline, if_neg h1, if_pos h3]

/-- Witness for C5: a contact-start transition at a concrete state, with
`lastChannelUsed = 7`. -/
theorem claimC5_witness :
    (initRibbon 20 7).baseline < baseline_limit ∧
    baseline_limit < tickCV (initRibbon 20 7) 20 ∧
    ((ribbonTick (initRibbon 20 7) 20 5).2 =
        [MidiOut.pitchBend 0 (initRibbon 20 7).lastChannelUsed] ∧
      (ribbonTick (initRibbon 20 7) 20 5).1.baseline =
        tickCV (initRibbon 20 7) 20) :=
  ⟨by decide, by decide,
   (claimC5 (initRibbon 20 7) 20 5).1 (by decide) (by decide)⟩

/-- Claim C6 counterexample.  First half: from the `setup()` state seeded
with 0, the raw sample 2 differs from the rolling accumulator (0) by more
than the slope threshold 1, yet `currentValue` changes on that tick (the
code compares the updated accumulator against the lagged ring-buffer
sample, not the raw sample against the accumulator).  Second half: from
`stateC6B`, the raw sample 2021/20 first moves the accumulator by more
than the threshold; fed again on the next tick it is within the threshold
of the new accumulator (distance 399/400 < 1), yet `currentValue` is still
not updated, because the lagged ring-buffer sample is far away. -/
theorem claimC6_counterexample :
    (|(2 : ℚ) - (initRibbon 0 0).accumulator| > slope_ysize ∧
      (ribbonTick (initRibbon 0 0) 2 0).1.currentValue ≠
        (initRibbon 0 0).currentValue) ∧
    (|(2021 / 20 : ℚ) - stateC6B.accumulator| > slope_ysize ∧
      (ribbonTick stateC6B (2021 / 20) 0).1.currentValue =
        stateC6B.currentValue ∧
      |(2021 / 20 : ℚ) - (ribbonTick stateC6B (2021 / 20) 0).1.accumulator| <
        slope_ysize ∧
      (ribbonTick (ribbonTick stateC6B (2021 / 20) 0).1 (2021 / 20) 1).1.currentValue =
        stateC6B.currentValue) := by decide

/-- Claim C6 (amended): a tick on which the updated accumulator differs
from the lagged ring-buffer sample by at least the slope threshold 1 leaves
`currentValue` unchanged; a following tick with the same raw sample on
which the new accumulator is within the threshold of its lagged ring-buffer
sample updates `currentValue` to the accumulator. -/
theorem claimC6 (s : RibbonState) (x : ℚ) (t1 t2 : Nat) :
    (¬ |tickAcc s x - tickEarlier s x| < slope_ysize →
      (ribbonTick s x t1).1.currentValue = s.currentValue) ∧
    (|tickAcc (ribbonTick s x t1).1 x - tickEarlier (ribbonTick s x t1).1 x| <
        slope_ysize →
      (ribbonTick (ribbonTick s x t1).1 x t2).1.currentValue =
        tickAcc (ribbonTick s x t1).1 x) := by
  obtain ⟨-, -, pcv1, -, -⟩ := ribbonTick_state s x t1
  obtain ⟨-, -, pcv2, -, -⟩ := ribbonTick_state (ribbonTick s x t1).1 x t2
  constructor
  · intro h
    rw [pcv1, tickCV, if_neg h]
  · intro h
    rw [pcv2, tickCV, if_pos h]

/-- Witness for the amended C6 at a concrete state: the sample 20 is first
rejected (accumulator 1 vs lagged sample 0, distance 1), then accepted
(accumulator 39/20 vs lagged sample 3/2, distance 9/20). -/
theorem claimC6_witness :
    ¬ |tickAcc stateC6W 20 - tickEarlier stateC6W 20| < slope_ysize ∧
    (ribbonTick stateC6W 20 0).1.currentValue = stateC6W.currentValue ∧
    |tickAcc (ribbonTick stateC6W 20 0).1 20 -
        tickEarlier (ribbonTick stateC6W 20 0).1 20| < slope_ysize ∧
    (ribbonTick (ribbonTick stateC6W 20 0).1 20 1).1.currentValue =
      tickAcc (ribbonTick stateC6W 20 0).1 20 :=
  ⟨by decide, (claimC6 stateC6W 20 0 1).1 (by decide), by decide,
   (claimC6 stateC6W 20 0 1).2 (by decide)⟩

/-- Claim C8: for every number of iterations from the `setup()` state,
`loopCount` stays in [0, 19], the ring buffer keeps exactly 20 entries, and
both the write index `loopCount % 20` and the read index
`(loopCount + 1) % 20` are within the buffer length. -/
theorem claimC8 (seed : ℚ) (ch : Nat) (sensor : Nat → ℚ)
    (clock : Nat → Nat) (n : Nat) :
    (runN seed ch sensor clock n).loopCount < slope_xsize ∧
    (runN seed ch sensor clock n).sample.length = slope_xsize ∧
    (runN seed ch sensor clock n).loopCount % slope_xsize <
      (runN seed ch sensor clock n).sample.length ∧
    ((runN seed ch sensor clock n).loopCount + 1) % slope_xsize <
      (runN seed ch sensor clock n).sample.length := by
  obtain ⟨hlc, hlen, -, -, -⟩ := runN_state seed ch sensor clock n
  refine ⟨?_, hlen, ?_, ?_⟩
  · rw [hlc]
    simp only [slope_xsize]
    omega
  · rw [hlc, hlen]
    simp only [slope_xsize]
    omega
  · rw [hlc, hlen]
    simp only [slope_xsize]
    omega

/-- Claim C9: the zero-valued reset pitch-bends sent on contact-start and
contact-end transitions leave `lastMessage` and `lastBend` unchanged; both
are updated exactly when a throttled in-contact bend message is sent.
Consequently (concrete runs at the end): a regular bend message can be
emitted 1 ms after a reset send, and a bend equal to the value sent before
a pair of resets is suppressed even though the most recently sent value
was 0. -/
theorem claimC9 :
    (∀ (s : RibbonState) (x : ℚ) (now : Nat),
      s.baseline < baseline_limit → baseline_limit < tickCV s x →
      (ribbonTick s x now).1.lastMessage = s.lastMessage ∧
      (ribbonTick s x now).1.lastBend = s.lastBend) ∧
    (∀ (s : RibbonState) (x : ℚ) (now : Nat),
      ¬ s.baseline < baseline_limit → tickCV s x ≤ baseline_limit →
      (ribbonTick s x now).1.lastMessage = s.lastMessage ∧
      (ribbonTick s x now).1.lastBend = s.lastBend) ∧
    (∀ (s : RibbonState) (x : ℚ) (now : Nat),
      (ribbonTick s x now).1.lastMessage ≠ s.lastMessage ∨
        (ribbonTick s x now).1.lastBend ≠ s.lastBend →
      ¬ s.baseline < baseline_limit ∧ baseline_limit < tickCV s x ∧
      (ribbonTick s x now).2 =
        [MidiOut.pitchBend (tickBend s x) s.lastChannelUsed] ∧
      (ribbonTick s x now).1.lastMessage = now ∧
      (ribbonTick s x now).1.lastBend = tickBend s x) ∧
    ((ribbonTick stateC9d 20 1000).2 = [MidiOut.pitchBend 0 0] ∧
      (ribbonTick stateC9d 20 1000).1.lastMessage = 0 ∧
      (ribbonTick (ribbonTick stateC9d 20 1000).1 30 1001).2 =
        [MidiOut.pitchBend 1 0]) ∧
    ((ribbonTick stateC9e 10 50).2 = [MidiOut.pitchBend 0 0] ∧
      (ribbonTick (ribbonTick stateC9e 10 50).1 300 60).2 =
        [MidiOut.pitchBend 0 0] ∧
      (ribbonTick (ribbonTick stateC9e 10 50).1 300 60).1.lastBend = 4 ∧
      tickBend ((ribbonTick (ribbonTick stateC9e 10 50).1 300 60).1) 65 = 4 ∧
      10 < usub32 70
        ((ribbonTick (ribbonTick stateC9e 10 50).1 300 60).1).lastMessage ∧
      (ribbonTick ((ribbonTick (ribbonTick stateC9e 10 50).1 300 60).1) 65 70).2 =
        []) := by
  refine ⟨?_, ?_, ?_, by decide, by decide⟩
  · intro s x now h1 h2
    rw [ribbonTick_lastMessage, ribbonTick_lastBend]
    simp [h1]
  · intro s x now h1 h3
    rw [ribbonTick_lastMessage, ribbonTick_lastBend]
    simp [h1, h3]
  · intro s x now h
    by_cases h1 : s.baseline < baseline_limit
    · rw [ribbonTick_lastMessage, ribbonTick_lastBend] at h
      simp [h1] at h
    · by_cases h3 : tickCV s x ≤ baseline_limit
      · rw [ribbonTick_lastMessage, ribbonTick_lastBend] at h
        simp [h1, h3] at h
      · by_cases h4 : tickBend s x ≠ s.lastBend
        · by_cases h5 : 10 < usub32 now s.lastMessage
          · refine ⟨h1, lt_of_not_le h3, ?_, ?_, ?_⟩
            · rw [ribbonTick_out, if_neg h1, if_neg h3, if_pos ⟨h4, h5⟩]
            · rw [ribbonTick_lastMessage, if_pos ⟨h1, h3, h4, h5⟩]
            · rw [ribbonTick_lastBend, if_pos ⟨h1, h3, h4, h5⟩]
          · rw [ribbonTick_lastMessage, ribbonTick_lastBend] at h
            simp [h1, h3, h4, h5] at h
        · rw [ribbonTick_lastMessage, ribbonTick_lastBend] at h
          simp [h1, h3, h4] at h

/-- Witness for C9 at a concrete contact-start transition: the reset send
leaves the throttle state untouched. -/
theorem claimC9_witness :
    stateC9d.baseline < baseline_limit ∧
    baseline_limit < tickCV stateC9d 20 ∧
    ((ribbonTick stateC9d 20 1000).1.lastMessage = stateC9d.lastMessage ∧
      (ribbonTick stateC9d 20 1000).1.lastBend = stateC9d.lastBend) :=
  ⟨by decide, by decide, claimC9.1 stateC9d 20 1000 (by decide) (by decide)⟩

/-- Claim C10: after `setup()` and after every number of loop iterations,
the baseline is either exactly 0 or strictly greater than the contact
threshold 13, and hence the not-in-contact test `baseline < 13` is
equivalent to `baseline = 0`. -/
theorem claimC10 (seed : ℚ) (ch : Nat) (sensor : Nat → ℚ)
    (clock : Nat → Nat) (n : Nat) :
    ((runN seed ch sensor clock n).baseline = 0 ∨
      baseline_limit < (runN seed ch sensor clock n).baseline) ∧
    ((runN seed ch sensor clock n).baseline < baseline_limit ↔
      (runN seed ch sensor clock n).baseline = 0) := by
  have h := runN_baseline seed ch sensor clock n
  refine ⟨h, ?_, ?_⟩
  · intro hlt
    rcases h with h0 | h13
    · exact h0
    · exact absurd hlt (lt_asymm h13)
  · intro h0
    rw [h0]
    unfold baseline_limit
    norm_num
